import Mathlib

/-!
Verification of the drone ground-station acquisition/protocol layer
(drone_gui). Lines on the wire are modelled as lists of characters;
Rust functions from src/parser.rs and src/app.rs are embedded as
executable Lean definitions. A Rust operation that can panic is given
an explicit result constructor for the panic outcome.
-/

/-- Outcome of Rust code that may panic: either a value or a panic. -/
inductive PanicOr (α : Type) where
  | panicked : PanicOr α
  | ok : α → PanicOr α
deriving DecidableEq, Repr

/-- Value of one decimal digit character, or none for any other character. -/
def digitVal (c : Char) : Option Nat :=
  if '0' ≤ c ∧ c ≤ '9' then some (c.toNat - '0'.toNat) else none

/-- Accumulating loop of decimal-digit parsing (base 10, most significant first). -/
def parseDigitsAux (acc : Nat) : List Char → Option Nat
  | [] => some acc
  | c :: cs =>
    match digitVal c with
    | none => none
    | some d => parseDigitsAux (10 * acc + d) cs

/-- Parse a nonempty run of decimal digits; none on empty input or a non-digit. -/
def parseDigits (s : List Char) : Option Nat :=
  match s with
  | [] => none
  | _ => parseDigitsAux 0 s

/-- Rust `str::parse` for an unsigned integer of the given bit width:
an optional leading plus sign, then at least one decimal digit, value
below 2 ^ bits; anything else is a parse error. -/
def parseUnsigned (bits : Nat) (s : List Char) : Option Nat :=
  let body :=
    match s with
    | '+' :: rest => rest
    | _ => s
  match parseDigits body with
  | none => none
  | some n => if n < 2 ^ bits then some n else none

/-- Rust `str::parse::<u32>`. -/
def parseU32 (s : List Char) : Option Nat := parseUnsigned 32 s

/-- Rust `str::parse::<u16>`. -/
def parseU16 (s : List Char) : Option Nat := parseUnsigned 16 s

/-- Rust `str::parse::<i32>`: optional sign, at least one decimal digit,
value in the range of a 32-bit two's-complement integer. -/
def parseI32 (s : List Char) : Option Int :=
  match s with
  | '-' :: rest =>
    match parseDigits rest with
    | none => none
    | some n => if n ≤ 2 ^ 31 then some (-(n : Int)) else none
  | '+' :: rest =>
    match parseDigits rest with
    | none => none
    | some n => if n < 2 ^ 31 then some (n : Int) else none
  | _ =>
    match parseDigits s with
    | none => none
    | some n => if n < 2 ^ 31 then some (n : Int) else none

/-- Rust `str::split(sep)`: split on every occurrence of the separator;
always yields at least one (possibly empty) field. -/
def splitOnChar (sep : Char) : List Char → List (List Char)
  | [] => [[]]
  | c :: cs =>
    if c = sep then [] :: splitOnChar sep cs
    else
      match splitOnChar sep cs with
      | [] => [[c]]
      | p :: ps => (c :: p) :: ps

/-- Rust `str::splitn(2, sep)` reduced to its two outputs: the text before
the first separator and the text after it, or none when the separator does
not occur. -/
def splitFirst (sep : Char) : List Char → Option (List Char × List Char)
  | [] => none
  | c :: cs =>
    if c = sep then some ([], cs)
    else
      match splitFirst sep cs with
      | none => none
      | some (a, b) => some (c :: a, b)

/-- Rust `str::strip_prefix(tag)`: some remainder when the line starts with
the tag, none otherwise. -/
def stripTag : List Char → List Char → Option (List Char)
  | [], s => some s
  | _ :: _, [] => none
  | t :: ts, c :: cs => if c = t then stripTag ts cs else none

/-- Joining of fields with a separator character, the left inverse of
`splitOnChar` on separator-free fields; used to state theorems about
whole protocol lines. -/
def joinSep (sep : Char) : List (List Char) → List Char
  | [] => []
  | [f] => f
  | f :: fs => f ++ sep :: joinSep sep fs

/-- The tag of a received-message frame. -/
def rcvTag : List Char := "+RCV=".toList

/-- The tag of a log frame. -/
def logTag : List Char := "LOG:".toList

/-- ReceivedMessage (src/telemetry.rs, used by src/parser.rs): the decoded
peer radio message. The Rust field `from` is a Lean keyword and is named
`fromAddr` here. The receipt-time field `time` (filled from the local
clock, not from the wire) is omitted from the decoding model. -/
structure ReceivedMessage where
  fromAddr : Nat
  length : Nat
  message : List Char
  rssi : Int
  snr : Int
deriving DecidableEq, Repr

/-- Result of running `parse_rcv`: a panic (Rust index out of bounds), a
silent non-match (Rust None), or a decoded message (Rust Some). -/
inductive RcvResult where
  | panicked : RcvResult
  | nomatch : RcvResult
  | ok : ReceivedMessage → RcvResult
deriving DecidableEq, Repr

/-- The body of `parse_rcv` (src/parser.rs lines 9 to 22) after the line has
been stripped of its tag and split on commas. Each `parts[i]` index in the
Rust source panics when i is out of bounds, modelled by `RcvResult.panicked`;
each failed `.parse().ok()?` returns None, modelled by `RcvResult.nomatch`. -/
def parse_rcv_parts (parts : List (List Char)) : RcvResult :=
  match parts.get? 0 with
  | none => .panicked
  | some p0 =>
    match parseU32 p0 with
    | none => .nomatch
    | some address =>
      match parts.get? 1 with
      | none => .panicked
      | some p1 =>
        match parseU32 p1 with
        | none => .nomatch
        | some length =>
          match parts.get? 2 with
          | none => .panicked
          | some message =>
            match parts.get? 3 with
            | none => .panicked
            | some p3 =>
              match parseI32 p3 with
              | none => .nomatch
              | some rssi =>
                match parts.get? 4 with
                | none => .panicked
                | some p4 =>
                  match parseI32 p4 with
                  | none => .nomatch
                  | some snr => .ok ⟨address, length, message, rssi, snr⟩

/-- `parse_rcv` (src/parser.rs lines 6 to 23): strip the `+RCV=` tag
(returning None when absent), split the remainder on every comma, then read
fields 0 to 4 by direct indexing. -/
def parse_rcv (line : List Char) : RcvResult :=
  match stripTag rcvTag line with
  | none => .nomatch
  | some rest => parse_rcv_parts (splitOnChar ',' rest)

/-- Result of running `parse_telemetry`: panic, non-match, or success. The
success constructor carries no payload because the Rust implementation is
`todo!()` and never constructs a TelemetryData; the TelemetryData type
itself lives in src/telemetry.rs. -/
inductive TelemetryResult where
  | panicked : TelemetryResult
  | nomatch : TelemetryResult
  | ok : TelemetryResult
deriving DecidableEq, Repr

/-- `parse_telemetry` (src/parser.rs lines 28 to 38): `splitn(2, ':')`, two
`.next()?` calls (the second returns None when the line has no colon), a
header check against "T", then `todo!()` — an unconditional panic — on every
line whose header is exactly "T". -/
def parse_telemetry (line : List Char) : TelemetryResult :=
  match splitFirst ':' line with
  | none => .nomatch
  | some (header, _hex) =>
    if header = "T".toList then .panicked else .nomatch

/-- `parse_log` (src/parser.rs lines 42 to 44): strip a literal `LOG:` tag
and return the remainder, or None when the tag is absent. -/
def parse_log (line : List Char) : Option (List Char) :=
  stripTag logTag line

/-! ## Lemmas about the string primitives -/

theorem stripTag_eq_some (tag : List Char) :
    ∀ (s r : List Char), stripTag tag s = some r ↔ s = tag ++ r := by
  induction tag with
  | nil => intro s r; simp [stripTag]
  | cons t ts ih =>
    intro s r
    cases s with
    | nil => simp [stripTag]
    | cons c cs =>
      by_cases hc : c = t
      · subst hc
        simp [stripTag, ih]
      · simp [stripTag, hc]

theorem stripTag_append (tag rest : List Char) : stripTag tag (tag ++ rest) = some rest :=
  (stripTag_eq_some tag (tag ++ rest) rest).mpr rfl

theorem splitOnChar_of_not_mem (sep : Char) (a : List Char) (h : sep ∉ a) :
    splitOnChar sep a = [a] := by
  induction a with
  | nil => rfl
  | cons c cs ih =>
    have hc : ¬ c = sep := fun hc => h (hc ▸ List.mem_cons_self c cs)
    have hcs : sep ∉ cs := fun hm => h (List.mem_cons_of_mem c hm)
    simp [splitOnChar, hc, ih hcs]

theorem splitOnChar_append (sep : Char) (a b : List Char) (h : sep ∉ a) :
    splitOnChar sep (a ++ sep :: b) = a :: splitOnChar sep b := by
  induction a with
  | nil => simp [splitOnChar]
  | cons c cs ih =>
    have hc : ¬ c = sep := fun hc => h (hc ▸ List.mem_cons_self c cs)
    have hcs : sep ∉ cs := fun hm => h (List.mem_cons_of_mem c hm)
    simp [splitOnChar, hc, ih hcs]

theorem splitOnChar_joinSep (sep : Char) :
    ∀ (fs : List (List Char)), fs ≠ [] → (∀ f ∈ fs, sep ∉ f) →
      splitOnChar sep (joinSep sep fs) = fs
  | [], h, _ => absurd rfl h
  | [f], _, hall => by
      simp [joinSep, splitOnChar_of_not_mem sep f (hall f (by simp))]
  | f :: g :: fs, _, hall => by
      have h1 : sep ∉ f := hall f (by simp)
      have hrest : ∀ x ∈ g :: fs, sep ∉ x := fun x hx => hall x (List.mem_cons_of_mem f hx)
      have ih := splitOnChar_joinSep sep (g :: fs) (by simp) hrest
      simp [joinSep, splitOnChar_append sep f _ h1, ih]

/-- Core computation of `parse_rcv` on a line built from explicit top-level
fields: when the first two fields parse as u32 and the fourth and fifth as
i32, the result is Some, with the message equal to the third field and with
any fields beyond the fifth ignored. -/
theorem parse_rcv_fields (f0 f1 f2 f3 f4 : List Char) (rest : List (List Char))
    (av lv : Nat) (rv sv : Int)
    (hall : ∀ f ∈ f0 :: f1 :: f2 :: f3 :: f4 :: rest, ',' ∉ f)
    (h0 : parseU32 f0 = some av) (h1 : parseU32 f1 = some lv)
    (h3 : parseI32 f3 = some rv) (h4 : parseI32 f4 = some sv) :
    parse_rcv (rcvTag ++ joinSep ',' (f0 :: f1 :: f2 :: f3 :: f4 :: rest)) =
      RcvResult.ok ⟨av, lv, f2, rv, sv⟩ := by
  have hsplit := splitOnChar_joinSep ',' (f0 :: f1 :: f2 :: f3 :: f4 :: rest) (by simp) hall
  have hstrip := stripTag_append rcvTag (joinSep ',' (f0 :: f1 :: f2 :: f3 :: f4 :: rest))
  simp [parse_rcv, hstrip, hsplit, parse_rcv_parts, h0, h1, h3, h4]

/-! ## Claims about the wire codec -/

/-- C1: the claim says a `+RCV=` line with fewer than 5 comma-separated
fields yields nothing, never a panic. The code instead indexes `parts[1]`
unconditionally: on the line `+RCV=0` (one field, which parses as u32) the
index is out of bounds and `parse_rcv` panics. This theorem evaluates the
embedded code at that failing input. -/
theorem parse_rcv_short_line_panics :
    parse_rcv ("+RCV=0".toList) = RcvResult.panicked := by decide

/-- C2: the claim says a line tagged `T` with 14 colon-separated decimal
floats decodes to a TelemetryData. The implementation of `parse_telemetry`
is `todo!()`: on every line whose header before the first colon is exactly
`T` — including a well-formed 14-field line — it panics instead of
returning a value. This theorem evaluates the embedded code at such a
well-formed input. -/
theorem parse_telemetry_unimplemented_panics :
    parse_telemetry
      ("T:1.0:2.0:3.0:0.1:0.2:0.3:0.4:0.5:0.6:0.7:0.8:0.9:10.0:11.5".toList) =
      TelemetryResult.panicked := by decide

/-- C3 counterexample: on the line `+RCV=1,2,a,5,-3,7`, whose payload under
the claimed reading is `a,5` with rssi -3 and snr 7 (the last two fields),
the code instead returns message `a` (field index 2 of the plain comma
split), rssi 5 and snr -3: the comma-containing payload is not recovered
and rssi/snr are not taken from the last two fields. -/
theorem parse_rcv_comma_payload_cex :
    parse_rcv ("+RCV=1,2,a,5,-3,7".toList) =
      RcvResult.ok ⟨1, 2, "a".toList, 5, -3⟩ ∧
    RcvResult.ok ⟨1, 2, "a".toList, 5, -3⟩ ≠
      RcvResult.ok ⟨1, 2, "a,5".toList, -3, 7⟩ := by
  constructor
  · decide
  · decide

/-- C3 amended: for a `+RCV=` line whose payload contains a comma (payload
written m1,m2 with m1 and m2 comma-free), `parse_rcv` does not reconstruct
the payload: the line is split on every comma, the reported message is only
m1 (field index 2), and rssi/snr are read from field indexes 3 and 4 — that
is, from the payload fragment m2 and from the rssi field r — not from the
last two fields. -/
theorem parse_rcv_comma_payload_truncates
    (a l m1 m2 r s : List Char) (av lv : Nat) (mv rv : Int)
    (hall : ∀ f ∈ [a, l, m1, m2, r, s], ',' ∉ f)
    (ha : parseU32 a = some av) (hl : parseU32 l = some lv)
    (hm2 : parseI32 m2 = some mv) (hr : parseI32 r = some rv) :
    parse_rcv (rcvTag ++ joinSep ',' [a, l, m1 ++ ',' :: m2, r, s]) =
      RcvResult.ok ⟨av, lv, m1, mv, rv⟩ := by
  have hline : joinSep ',' [a, l, m1 ++ ',' :: m2, r, s] =
      joinSep ',' [a, l, m1, m2, r, s] := by
    simp [joinSep]
  rw [hline]
  exact parse_rcv_fields a l m1 m2 r [s] av lv mv rv hall ha hl hm2 hr

/-- C3 amended witness: concrete line `+RCV=1,2,a,5,-3,7` with payload
`a,5`: the decode yields message `a`, rssi 5 and snr -3. -/
theorem parse_rcv_comma_payload_truncates_witness :
    parse_rcv (rcvTag ++
      joinSep ',' ["1".toList, "2".toList, "a".toList ++ ',' :: "5".toList,
        "-3".toList, "7".toList]) =
      RcvResult.ok ⟨1, 2, "a".toList, 5, -3⟩ :=
  parse_rcv_comma_payload_truncates ("1".toList) ("2".toList) ("a".toList)
    ("5".toList) ("-3".toList) ("7".toList) 1 2 5 (-3)
    (by decide) (by decide) (by decide) (by decide) (by decide)

/-- C5: for every well-formed `+RCV=<addr>,<len>,<payload>,<rssi>,<snr>`
line with comma-free fields, addr and len parsing as u32 and rssi and snr
as i32, `parse_rcv` returns exactly the tuple (addr, len, payload, rssi,
snr). No hypothesis relates len to the payload length: the declared length
is advisory, a mismatch is neither re-validated nor a panic. -/
theorem parse_rcv_wellformed
    (a l m r s : List Char) (av lv : Nat) (rv sv : Int)
    (hall : ∀ f ∈ [a, l, m, r, s], ',' ∉ f)
    (ha : parseU32 a = some av) (hl : parseU32 l = some lv)
    (hr : parseI32 r = some rv) (hs : parseI32 s = some sv) :
    parse_rcv (rcvTag ++ joinSep ',' [a, l, m, r, s]) =
      RcvResult.ok ⟨av, lv, m, rv, sv⟩ :=
  parse_rcv_fields a l m r s [] av lv rv sv hall ha hl hr hs

/-- C5 witness: the line `+RCV=1,99,hi,-3,7`, in which the declared length
99 differs from the 2-byte payload `hi`, decodes to exactly
(1, 99, hi, -3, 7). -/
theorem parse_rcv_wellformed_witness :
    parse_rcv (rcvTag ++
      joinSep ',' ["1".toList, "99".toList, "hi".toList, "-3".toList, "7".toList]) =
      RcvResult.ok ⟨1, 99, "hi".toList, -3, 7⟩ :=
  parse_rcv_wellformed ("1".toList) ("99".toList) ("hi".toList) ("-3".toList)
    ("7".toList) 1 99 (-3) 7 (by decide) (by decide) (by decide) (by decide)
    (by decide)

/-- C9: `parse_log` returns some remainder exactly when the line is the
literal `LOG:` tag followed by that remainder (so the remainder, possibly
empty, is returned verbatim and a line without the tag yields none);
moreover the three concrete examples of the claim hold. -/
theorem parse_log_spec :
    (∀ line r, parse_log line = some r ↔ line = logTag ++ r) ∧
    parse_log ("LOG:hello".toList) = some ("hello".toList) ∧
    parse_log ("LOG:".toList) = some [] ∧
    parse_log ("NOTLOG:x".toList) = none := by
  refine ⟨fun line r => ?_, by decide, by decide, by decide⟩
  simpa [parse_log] using stripTag_eq_some logTag line r

/-- C9 witness: the characterisation applied at the concrete line `LOG:abc`. -/
theorem parse_log_spec_witness :
    parse_log ("LOG:abc".toList) = some ("abc".toList) :=
  (parse_log_spec.1 ("LOG:abc".toList) ("abc".toList)).mpr (by decide)

/-- C10: for every `+RCV=` line splitting into more than 5 comma-separated
fields whose first two fields parse as u32 and whose fourth and fifth parse
as i32, `parse_rcv` returns Some with message equal to exactly the third
field; every field after the fifth is silently discarded, never an error. -/
theorem parse_rcv_extra_fields_discarded
    (f0 f1 f2 f3 f4 e : List Char) (es : List (List Char))
    (av lv : Nat) (rv sv : Int)
    (hall : ∀ f ∈ f0 :: f1 :: f2 :: f3 :: f4 :: e :: es, ',' ∉ f)
    (h0 : parseU32 f0 = some av) (h1 : parseU32 f1 = some lv)
    (h3 : parseI32 f3 = some rv) (h4 : parseI32 f4 = some sv) :
    parse_rcv (rcvTag ++ joinSep ',' (f0 :: f1 :: f2 :: f3 :: f4 :: e :: es)) =
      RcvResult.ok ⟨av, lv, f2, rv, sv⟩ :=
  parse_rcv_fields f0 f1 f2 f3 f4 (e :: es) av lv rv sv hall h0 h1 h3 h4

/-- C10 witness: the 7-field line `+RCV=1,2,msg,3,4,extra,tail` decodes to
(1, 2, msg, 3, 4) with the two trailing fields discarded. -/
theorem parse_rcv_extra_fields_discarded_witness :
    parse_rcv (rcvTag ++
      joinSep ',' ["1".toList, "2".toList, "msg".toList, "3".toList, "4".toList,
        "extra".toList, "tail".toList]) =
      RcvResult.ok ⟨1, 2, "msg".toList, 3, 4⟩ :=
  parse_rcv_extra_fields_discarded ("1".toList) ("2".toList) ("msg".toList)
    ("3".toList) ("4".toList) ("extra".toList) ["tail".toList] 1 2 3 4
    (by decide) (by decide) (by decide) (by decide) (by decide)

/-! ## Model of the application state and its operations (src/app.rs) -/

/-- An outbound command carried on the uart channel (src/uart.rs enum
UartCommand, as constructed by src/app.rs): `Send { address: u16, data }`. -/
inductive UartCommand where
  | Send : Nat → List Char → UartCommand
deriving DecidableEq, Repr

/-- The side effect of one call into the uart module. -/
inductive UartEvent where
  | spawnReadThread : List Char → UartEvent
deriving DecidableEq, Repr

/-- Modelled from the spec: `uart::start_uart_thread` lives in src/uart.rs,
which is absent from the sources; per the spec (Serial Session, §4.3) it
opens the port at the given path, spawns the background read loop and
returns the command-channel sender. Modelled as returning a fresh sender
identity and emitting exactly one spawn/port-open event. -/
def uartStart (port : List Char) (freshSender : Nat) : Nat × List UartEvent :=
  (freshSender, [UartEvent.spawnReadThread port])

/-- The fields of AppState (src/app.rs lines 15 to 29) that the serial
session operations touch. `data_buffer` is the identity of the shared
Arc-held buffer; `uart_sender` is the identity of the channel sender, if
any. Rendering-only fields are omitted. -/
structure AppStateM where
  serial_connected : Bool
  port_path : List Char
  uart_sender : Option Nat
  data_buffer : Nat
  send_address : List Char
  send_data : List Char
deriving DecidableEq, Repr

/-- `AppState::start_uart_thread` (src/app.rs lines 65 to 74): an early
return when already connected; otherwise start the uart thread on the
configured port, store the sender and set the connected flag. The returned
list holds the spawn/port-open events the call performed. -/
def start_uart_thread (s : AppStateM) (freshSender : Nat) :
    AppStateM × List UartEvent :=
  if s.serial_connected then (s, [])
  else
    let r := uartStart s.port_path freshSender
    ({ s with uart_sender := some r.1, serial_connected := true }, r.2)

/-- Observable outcome of `AppState::send_data`. -/
inductive SendOutcome where
  | enqueued : UartCommand → SendOutcome
  | invalidAddress : List Char → SendOutcome
  | channelError : SendOutcome
  | noSender : SendOutcome
deriving DecidableEq, Repr

/-- `AppState::send_data` (src/app.rs lines 76 to 90): nothing at all
happens when `uart_sender` is None; with a sender, an address string that
fails u16 parsing is reported as invalid (eprintln) and nothing is
enqueued; otherwise a Send command is handed to the channel, whose send
fails (reported via eprintln, nothing enqueued) exactly when the receiver
side is gone, modelled by the `channelAlive` flag. -/
def send_data (s : AppStateM) (channelAlive : Bool) : SendOutcome :=
  match s.uart_sender with
  | none => SendOutcome.noSender
  | some _ =>
    match parseU16 s.send_address with
    | none => SendOutcome.invalidAddress s.send_address
    | some address =>
      if channelAlive then SendOutcome.enqueued (UartCommand.Send address s.send_data)
      else SendOutcome.channelError

/-- One decoded camera frame (src/video.rs VideoFrame as used by
src/app.rs): width, height and interleaved RGB bytes. -/
structure VideoFrame where
  width : Nat
  height : Nat
  data : List Nat
deriving DecidableEq, Repr

/-- The consumer-side read of the video frame slot (src/app.rs lines 128 to
132): `state.video_frame.lock().ok().and_then(clone)`. The first component
is the value read (none when the lock is poisoned, a clone of the slot
otherwise); the second is the slot content afterwards — the read never
writes the slot. -/
def take_latest (slot : Option VideoFrame) (lockOk : Bool) :
    Option VideoFrame × Option VideoFrame :=
  if lockOk then (slot, slot) else (none, slot)

/-- A log entry (src/telemetry.rs LogEntry as read by src/app.rs): the
receipt-clock field is omitted, only the message is modelled. -/
structure LogEntryM where
  message : List Char
deriving DecidableEq, Repr

/-- One stored telemetry sample as read by the consumer (src/app.rs lines
150 to 155 and 336 to 347). The Rust fields are floats; no claim depends on
their arithmetic, so they are carried as integers here. -/
structure AttitudeM where
  roll : Int
  pitch : Int
  yaw : Int
deriving DecidableEq, Repr

/-- The shared DataBuffer (src/telemetry.rs) as read by the consumer:
the telemetry sequence and the log sequence. -/
structure DataBufferM where
  data : List AttitudeM
  logs : List LogEntryM
deriving DecidableEq, Repr

/-- Outcome of acquiring a Rust mutex: the guard, or a poison error (which
still carries the protected value). -/
inductive LockResult (α : Type) where
  | acquired : α → LockResult α
  | poisoned : α → LockResult α
deriving DecidableEq, Repr

/-- What the consumer-side reads of `ui_system` produce. -/
structure UiReadout where
  videoFrame : Option VideoFrame
  orientation : Option AttitudeM
  logsShown : List LogEntryM
  latestSample : Option AttitudeM
deriving DecidableEq, Repr

/-- The consumer-side shared-state reads of `ui_system` (src/app.rs): the
video-frame read at lines 128 to 132 uses `.lock().ok()` and tolerates a
poisoned lock; the orientation read at lines 149 to 157 uses
`if let Ok(buffer)` and also tolerates it; the System Logs read at line 240
(and likewise the plot and current-value reads at lines 263, 306 and 335)
uses `data_buffer.lock().unwrap()`, which panics when the lock is
poisoned. -/
def ui_system (vfLock : LockResult (Option VideoFrame))
    (dbLock : LockResult DataBufferM) : PanicOr UiReadout :=
  let frame : Option VideoFrame :=
    match vfLock with
    | LockResult.acquired v => v
    | LockResult.poisoned _ => none
  let orient : Option AttitudeM :=
    match dbLock with
    | LockResult.acquired b => b.data.getLast?
    | LockResult.poisoned _ => none
  match dbLock with
  | LockResult.poisoned _ => PanicOr.panicked
  | LockResult.acquired b => PanicOr.ok ⟨frame, orient, b.logs, b.data.getLast?⟩

/-- The handle produced by a successful gamepad-subsystem initialisation
(external gilrs library); its internals are irrelevant here. -/
structure GilrsHandle where
  id : Nat
deriving DecidableEq, Repr

/-- GamepadState (src/app.rs lines 33 to 35). -/
structure GamepadState where
  gilrs : GilrsHandle
deriving DecidableEq, Repr

/-- `GamepadState::default` (src/app.rs lines 56 to 62):
`Gilrs::new().unwrap()` — the error branch of the external initialisation
is unwrapped and panics. -/
def GamepadState.default (init : Except (List Char) GilrsHandle) :
    PanicOr GamepadState :=
  match init with
  | Except.ok g => PanicOr.ok ⟨g⟩
  | Except.error _ => PanicOr.panicked

/-! ## Claims about the application layer -/

/-- C4: the claim says no error-handling path terminates the consumer
thread or the process. The code contradicts it in two places, evaluated
here: the System Logs read of `ui_system` calls
`data_buffer.lock().unwrap()` and panics when the shared buffer mutex is
poisoned, and `GamepadState::default` calls `Gilrs::new().unwrap()` and
panics when the gamepad subsystem fails to initialise. -/
theorem ui_consumer_error_paths_panic :
    ui_system (LockResult.acquired none) (LockResult.poisoned ⟨[], []⟩) =
      PanicOr.panicked ∧
    GamepadState.default (Except.error ("gilrs init failed".toList)) =
      PanicOr.panicked :=
  ⟨rfl, rfl⟩

/-- C6: `start_uart_thread` is idempotent. In any already-connected state a
start request returns the state unchanged and performs no spawn or port
open; and after any first start request, a second request is always such a
no-op. -/
theorem start_uart_thread_idempotent (s : AppStateM) (f g : Nat) :
    (s.serial_connected = true → start_uart_thread s f = (s, [])) ∧
    start_uart_thread (start_uart_thread s f).1 g =
      ((start_uart_thread s f).1, []) := by
  constructor
  · intro h
    simp [start_uart_thread, h]
  · by_cases h : s.serial_connected
    · simp [start_uart_thread, h]
    · simp [start_uart_thread, h, uartStart]

/-- C6 witness: in a concrete connected state, a start request changes
nothing and emits no event. -/
theorem start_uart_thread_idempotent_witness :
    start_uart_thread ⟨true, "/dev/ttyAMA1".toList, some 1, 0, "0".toList, []⟩ 2 =
      (⟨true, "/dev/ttyAMA1".toList, some 1, 0, "0".toList, []⟩, []) :=
  (start_uart_thread_idempotent
    ⟨true, "/dev/ttyAMA1".toList, some 1, 0, "0".toList, []⟩ 2 3).1 rfl

/-- C7 counterexample: in a state whose uart sender is absent (session
never started) and whose address string `5` parses as u16, the claim
predicts a Send command is enqueued; `send_data` instead does nothing at
all — nothing is enqueued and no reason is reported. -/
theorem send_data_no_sender_cex :
    send_data ⟨false, [], none, 0, "5".toList, "hi".toList⟩ true =
      SendOutcome.noSender ∧
    send_data ⟨false, [], none, 0, "5".toList, "hi".toList⟩ true ≠
      SendOutcome.enqueued (UartCommand.Send 5 ("hi".toList)) := by
  constructor
  · decide
  · decide

/-- C7 amended: when a uart sender is present, an address string that fails
u16 parsing is rejected with a reported reason and never enqueued, and an
address string that parses as u16 has its Send command enqueued whenever
the channel is alive; when no sender is present, `send_data` does
nothing. -/
theorem send_data_boundary (s : AppStateM) (alive : Bool) (sid : Nat)
    (hs : s.uart_sender = some sid) :
    (parseU16 s.send_address = none →
      send_data s alive = SendOutcome.invalidAddress s.send_address ∧
      ∀ c, send_data s alive ≠ SendOutcome.enqueued c) ∧
    (∀ a, parseU16 s.send_address = some a → alive = true →
      send_data s alive = SendOutcome.enqueued (UartCommand.Send a s.send_data)) := by
  constructor
  · intro h
    constructor
    · simp [send_data, hs, h]
    · intro c
      simp [send_data, hs, h]
  · intro a ha halive
    simp [send_data, hs, ha, halive]

/-- C7 amended witness: a concrete state with a sender and address string
`7` enqueues Send 7. -/
theorem send_data_boundary_witness :
    send_data ⟨true, [], some 1, 0, "7".toList, "hi".toList⟩ true =
      SendOutcome.enqueued (UartCommand.Send 7 ("hi".toList)) :=
  (send_data_boundary ⟨true, [], some 1, 0, "7".toList, "hi".toList⟩ true 1
    rfl).2 7 (by decide) rfl

/-- C8: the consumer-side read of the video frame slot never writes the
slot, two consecutive reads with no intervening publish return equal
values, and when the lock is healthy the value read is a copy of the slot
contents. -/
theorem take_latest_nondestructive (slot : Option VideoFrame) (lk : Bool) :
    (take_latest slot lk).2 = slot ∧
    (take_latest ((take_latest slot lk).2) lk).1 = (take_latest slot lk).1 ∧
    (lk = true → (take_latest slot lk).1 = slot) := by
  cases lk <;> simp [take_latest]

/-- C8 witness: reading a concrete occupied slot returns its frame. -/
theorem take_latest_nondestructive_witness :
    (take_latest (some ⟨2, 2, [0, 1, 2]⟩) true).1 = some ⟨2, 2, [0, 1, 2]⟩ :=
  (take_latest_nondestructive (some ⟨2, 2, [0, 1, 2]⟩) true).2.2 rfl
